import Mathlib

/-!
Verification of the quota-provider aggregation core
(`packages/web/server/lib/quota-providers.js`).

The JavaScript module is shallowly embedded: JSON payloads become the
inductive type `JVal`, JS numbers become exact rationals (`ℚ`; the
floating-point values appearing in this module are small percentages,
timestamps and counters for which rational arithmetic is faithful; `NaN`
never reaches a decided branch in any claim and is modelled as a missing
value where noted), and every effect (clock, credential file, HTTP call,
locale formatting) is an explicit field of a `QuotaEnv` record, so each
`fetch...` function is a pure function of its environment.  A rejected
promise is modelled by `Except.error`; fetchers whose bodies are fully
guarded by `try`/`catch` are total.
-/

/-- A JavaScript/JSON value as seen by the quota module. -/
inductive JVal where
  | null
  | undefined
  | bool (b : Bool)
  | num (q : ℚ)
  | str (s : String)
  | arr (elems : List JVal)
  | obj (fields : List (String × JVal))

namespace JVal

/-- JS truthiness (`Boolean(v)`).  Falsy: `null`, `undefined`, `false`,
`0`, `""`.  (`NaN` is also falsy in JS; it has no representation here.) -/
def truthy : JVal → Bool
  | .null => false
  | .undefined => false
  | .bool b => b
  | .num q => if q = 0 then false else true
  | .str s => if s = "" then false else true
  | .arr _ => true
  | .obj _ => true

/-- `v === null || v === undefined`, the values short-circuited by `??`
and `?.`. -/
def isNullish : JVal → Bool
  | .null => true
  | .undefined => true
  | _ => false

end JVal

/-- Property lookup on an association list of object fields. -/
def jgetList : List (String × JVal) → String → JVal
  | [], _ => .undefined
  | (k0, v) :: rest, k => if k0 = k then v else jgetList rest k

/-- `v?.k` / `v.k`: property access, `undefined` when `v` is not an
object or lacks the key (JSON payload keys are assumed unique, so
first-match lookup is faithful). -/
def jget (v : JVal) (k : String) : JVal :=
  match v with
  | .obj fs => jgetList fs k
  | _ => .undefined

/-- `a ?? b`. -/
def jsOrElse (a b : JVal) : JVal :=
  if a.isNullish then b else a

/-- `Object.entries(v)` for an object, `[]` otherwise (the module only
applies it to `x ?? {}` where `x` is expected to be an object). -/
def objEntries : JVal → List (String × JVal)
  | .obj fs => fs
  | _ => []

/-- `xs[i]` for a numeric index: the element when `i` is an in-range
integer, `undefined` otherwise. -/
def jsIndex (xs : List JVal) (q : ℚ) : JVal :=
  if q.den = 1 ∧ 0 ≤ q.num then xs.getD q.num.toNat .undefined else .undefined

/-- First-some choice, modelling `a ?? b` on already-normalized
`Option`-valued intermediates (which are `null` or a usable value). -/
def optOr {α : Type} (a b : Option α) : Option α :=
  match a with
  | some x => some x
  | none => b

/-- Truthiness of a string-or-null intermediate (`!token`). -/
def optStrTruthy : Option String → Bool
  | none => false
  | some s => if s = "" then false else true

/-- ASCII whitespace for `String.prototype.trim` (the code points that
occur in this module's inputs). -/
def isWsChar (c : Char) : Bool :=
  c = ' ' ∨ c = '\t' ∨ c = '\n' ∨ c = '\r'

/-- `s.trim()`. -/
def jsTrim (s : String) : String :=
  String.mk (((s.data.dropWhile isWsChar).reverse.dropWhile isWsChar).reverse)

/-- Accumulator for `String.prototype.split('|')`. -/
def splitPipeAux : List Char → String → List String
  | [], acc => [acc]
  | c :: cs, acc =>
    if c = '|' then acc :: splitPipeAux cs "" else splitPipeAux cs (acc.push c)

/-- `s.split('|')`. -/
def splitPipe (s : String) : List String :=
  splitPipeAux s.data ""

/-- `s.startsWith(p)`. -/
def strStartsWith (s p : String) : Bool :=
  p.data.isPrefixOf s.data

/-- Decimal-digit run parser for `Number(string)`. -/
def decDigitsAux : List Char → Nat → Option Nat
  | [], acc => some acc
  | c :: cs, acc =>
    if c.isDigit then decDigitsAux cs (acc * 10 + (c.toNat - '0'.toNat)) else none

/-- `Number(s)` for a string: `""` (after trimming) coerces to `0`,
integer numerals to their value, anything else to `NaN` (modelled as
`none`; decimal/hex/exponent numerals are not needed by any claim and
are likewise mapped to `none`). -/
def jsStringToNumber (s : String) : Option ℚ :=
  match (jsTrim s).data with
  | [] => some 0
  | '-' :: rest =>
    match rest with
    | [] => none
    | _ => (decDigitsAux rest 0).map (fun n => -(n : ℚ))
  | l => (decDigitsAux l 0).map (fun n => (n : ℚ))

/-- `toNumber` (source lines 72-81): finite numbers pass through, numeric
strings are parsed, everything else is `null`. -/
def toNumber (value : JVal) : Option ℚ :=
  match value with
  | .num q => some q
  | .str s => jsStringToNumber s
  | _ => none

/-- `toTimestamp` (source lines 83-93): falsy input gives `null`; a
number below `10^12` is treated as epoch seconds and scaled to
milliseconds; a string goes through `Date.parse` (the environment's
`dateParse`); anything else is `null`. -/
def toTimestamp (dateParse : String → Option ℚ) (value : JVal) : Option ℚ :=
  if ¬ value.truthy then none
  else
    match value with
    | .num q => if q < 1000000000000 then some (q * 1000) else some q
    | .str s => dateParse s
    | _ => none

/-- `Math.round(q)`: nearest integer, ties toward positive infinity. -/
def jsRound (q : ℚ) : ℚ :=
  ((Int.floor (q + 1/2) : ℤ) : ℚ)

/-- `Math.floor(q)`. -/
def jsFloor (q : ℚ) : ℚ :=
  ((Int.floor q : ℤ) : ℚ)

/-- Integer rendering used by JS template literals and `toFixed`. -/
def intToJsString (n : ℤ) : String :=
  toString n

/-- `q.toFixed(0)`: nearest integer, ties away from... per ECMA-262 the
larger candidate is chosen, i.e. `⌊q + 1/2⌋`. -/
def jsToFixed0 (q : ℚ) : String :=
  intToJsString (Int.floor (q + 1/2))

/-- `q.toFixed(2)` for the money labels: the value rounded to hundredths
rendered with two decimals (exact for the in-range values the module
formats; float artifacts are not modelled). -/
def jsToFixed2 (q : ℚ) : String :=
  let n : ℤ := Int.floor (q * 100 + 1/2)
  let sign := if n < 0 then "-" else ""
  let a := n.natAbs / 100
  let b := n.natAbs % 100
  let frac := if b < 10 then "0" ++ toString b else toString b
  sign ++ toString a ++ "." ++ frac

/-- Rendering of a number inside a template literal; integers exactly,
non-integers via a fraction (JS decimal printing is not modelled; no
claim depends on a non-integer label). -/
def ratToJsString (q : ℚ) : String :=
  if q.den = 1 then intToJsString q.num
  else intToJsString q.num ++ "/" ++ toString q.den

/-- `${v}` — stringification inside a template literal. -/
def jvalTemplate : JVal → String
  | .str s => s
  | .num q => ratToJsString q
  | .bool b => if b then "true" else "false"
  | .null => "null"
  | .undefined => "undefined"
  | .arr _ => ""
  | .obj _ => "[object Object]"

/-- The on-disk credential store, already parsed: alias to stored entry. -/
abbrev AuthStore := List (String × JVal)

/-- `auth[alias]` on the parsed credential store (`undefined` when the
alias is absent). -/
def authLookup (auth : AuthStore) (k : String) : JVal :=
  jgetList auth k

/-- `getAuthEntry` (source lines 30-37): the first alias whose stored
value is truthy, else `null`. -/
def getAuthEntry (auth : AuthStore) : List String → JVal
  | [] => .null
  | alias0 :: rest =>
    if (authLookup auth alias0).truthy then authLookup auth alias0
    else getAuthEntry auth rest

/-- `normalizeAuthEntry` (source lines 39-48): falsy entries give `null`,
a bare string becomes `{ token }`, objects (including arrays, for which
`typeof` is also `'object'`) pass through, anything else gives `null`. -/
def normalizeAuthEntry (entry : JVal) : JVal :=
  if ¬ entry.truthy then .null
  else
    match entry with
    | .str s => .obj [("token", .str s)]
    | .obj fs => .obj fs
    | .arr xs => .arr xs
    | _ => .null

/-- `asObject` (source line 50): `value && typeof value === 'object' ?
value : null`. -/
def asObject (value : JVal) : JVal :=
  match value with
  | .obj fs => .obj fs
  | .arr xs => .arr xs
  | _ => .null

/-- `asNonEmptyString` (source lines 52-56): a string whose trimming is
non-empty, trimmed; otherwise `null`. -/
def asNonEmptyString (value : JVal) : Option String :=
  match value with
  | .str s => if jsTrim s = "" then none else some (jsTrim s)
  | _ => none

/-- The three fields packed into a Google refresh-token string. -/
structure GoogleRefreshParts where
  refreshToken : Option String
  projectId : Option String
  managedProjectId : Option String
  deriving DecidableEq

/-- `parseGoogleRefreshToken` (source lines 58-70): split the stored
refresh string on `|` into token, project id and managed project id. -/
def parseGoogleRefreshToken (rawRefreshToken : JVal) : GoogleRefreshParts :=
  match asNonEmptyString rawRefreshToken with
  | none => ⟨none, none, none⟩
  | some refreshToken =>
    let parts := splitPipe refreshToken
    ⟨asNonEmptyString (.str (parts.getD 0 "")),
     asNonEmptyString (.str (parts.getD 1 "")),
     asNonEmptyString (.str (parts.getD 2 ""))⟩

/-- The canonical usage-window record produced by `toUsageWindow`. -/
structure UsageWindow where
  usedPercent : Option ℚ
  remainingPercent : Option ℚ
  windowSeconds : Option ℚ
  resetAfterSeconds : Option ℚ
  resetAt : Option ℚ
  resetAtFormatted : Option String
  resetAfterFormatted : Option String
  valueLabel : Option String
  deriving DecidableEq

/-- Per-model usage block of the Google provider (`{ windows }`). -/
structure ModelUsage where
  windows : List (String × UsageWindow)
  deriving DecidableEq

/-- The `usage` payload of a provider result. -/
structure Usage where
  windows : List (String × UsageWindow)
  models : Option (List (String × ModelUsage))
  deriving DecidableEq

/-- The uniform provider result (`buildResult` output shape). -/
structure ProviderResult where
  providerId : String
  providerName : String
  ok : Bool
  configured : Bool
  usage : Option Usage
  error : Option String
  fetchedAt : ℚ
  deriving DecidableEq

/-- A thrown JS value: an `Error` carries its `message`; any other
thrown value is only ever inspected through `instanceof Error`, so its
identity is not modelled. -/
inductive JsException where
  | error (message : String)
  | thrown
  deriving DecidableEq

/-- `error instanceof Error ? error.message : 'Request failed'` — the
message every catch-all handler reports. -/
def jsErrorMessage : JsException → String
  | .error m => m
  | .thrown => "Request failed"

/-- One HTTP response: `ok`/`status` from the transport, and the result
of `response.json()` (which may itself throw on a malformed body). -/
structure HttpResponse where
  ok : Bool
  status : Nat
  body : Except JsException JVal

/-- Outcome of one `fetch(...)` call: a thrown transport error or a
response. -/
abbrev FetchResult := Except JsException HttpResponse

/-- The ambient world of one aggregation call: parsed credential store,
parsed antigravity account files, the clock, locale helpers, and one
oracle per outbound HTTP surface (keyed by request-determining inputs). -/
structure QuotaEnv where
  auth : AuthStore
  antigravityFiles : List JVal
  now : ℚ
  dateParse : String → Option ℚ
  formatReset : ℚ → Option String
  claudeFetch : FetchResult
  codexFetch : FetchResult
  copilotFetch : FetchResult
  copilotAddonFetch : FetchResult
  kimiFetch : FetchResult
  openrouterFetch : FetchResult
  zaiFetch : FetchResult
  nanoFetch : FetchResult
  googleTokenFetch : String → String → FetchResult
  googleBucketsFetch : String → String → FetchResult
  googleModelsFetch : String → String → String → FetchResult

/-- `calculateResetAfterSeconds` (source lines 122-126): `null` for a
falsy reset instant, else `floor((resetAt - now)/1000)` clamped below at
zero. -/
def calculateResetAfterSeconds (now : ℚ) (resetAt : Option ℚ) : Option ℚ :=
  match resetAt with
  | none => none
  | some t =>
    if t = 0 then none
    else
      let delta := jsFloor ((t - now) / 1000)
      some (if delta < 0 then 0 else delta)

/-- `toUsageWindow` (source lines 128-141).  `formatResetTime` is pure
locale formatting and is supplied by the environment. -/
def toUsageWindow (env : QuotaEnv) (usedPercent windowSeconds resetAt : Option ℚ)
    (valueLabel : Option String) : UsageWindow :=
  let resetAfterSeconds := calculateResetAfterSeconds env.now resetAt
  let resetFormatted :=
    match resetAt with
    | some t => if t = 0 then none else env.formatReset t
    | none => none
  { usedPercent := usedPercent,
    remainingPercent :=
      match usedPercent with
      | some u => some (max 0 (100 - u))
      | none => none,
    windowSeconds := windowSeconds,
    resetAfterSeconds := resetAfterSeconds,
    resetAt := resetAt,
    resetAtFormatted := resetFormatted,
    resetAfterFormatted := resetFormatted,
    valueLabel :=
      match valueLabel with
      | some l => if l = "" then none else some l
      | none => none }

/-- `buildResult` (source lines 143-151): the `error` key is only spread
into the result when the string is truthy, i.e. non-empty. -/
def buildResult (providerId providerName : String) (ok configured : Bool)
    (usage : Option Usage) (error : Option String) (now : ℚ) : ProviderResult :=
  { providerId := providerId,
    providerName := providerName,
    ok := ok,
    configured := configured,
    usage := usage,
    error :=
      match error with
      | some e => if e = "" then none else some e
      | none => none,
    fetchedAt := now }

/-- `durationToLabel` (source lines 153-159). -/
def durationToLabel (duration unit : JVal) : String :=
  if ¬ duration.truthy ∨ ¬ unit.truthy then "limit"
  else
    match unit with
    | .str "TIME_UNIT_MINUTE" => jvalTemplate duration ++ "m"
    | .str "TIME_UNIT_HOUR" => jvalTemplate duration ++ "h"
    | .str "TIME_UNIT_DAY" => jvalTemplate duration ++ "d"
    | _ => "limit"

/-- `durationToSeconds` (source lines 161-167).  The JS multiplication
`duration * 60` coerces `duration` to a number; a `NaN` outcome is
modelled as `null` (no claim observes it). -/
def durationToSeconds (duration unit : JVal) : Option ℚ :=
  if ¬ duration.truthy ∨ ¬ unit.truthy then none
  else
    match unit with
    | .str "TIME_UNIT_MINUTE" => (toNumber duration).map (fun d => d * 60)
    | .str "TIME_UNIT_HOUR" => (toNumber duration).map (fun d => d * 3600)
    | .str "TIME_UNIT_DAY" => (toNumber duration).map (fun d => d * 86400)
    | _ => none

/-- JS object keyed assignment `o[k] = v`: replace an existing key in
place, append a new one. -/
def setKey {α : Type} : List (String × α) → String → α → List (String × α)
  | [], k, v => [(k, v)]
  | (k0, v0) :: rest, k, v =>
    if k0 = k then (k0, v) :: rest else (k0, v0) :: setKey rest k v

/-- Keyed lookup on the window/model maps. -/
def lookupKey {α : Type} : List (String × α) → String → Option α
  | [], _ => none
  | (k0, v) :: rest, k => if k0 = k then some v else lookupKey rest k

/-- The window a fetched result carries under a given label. -/
def resultWindow (r : ProviderResult) (label : String) : Option UsageWindow :=
  match r.usage with
  | some u => lookupKey u.windows label
  | none => none

/-- OAuth client registration constants (source lines 297-302). -/
def ANTIGRAVITY_GOOGLE_CLIENT_ID : String :=
  "1071006060591-tmhssin2h21lcre235vtolojh4g403ep.apps.googleusercontent.com"

/-- Client secret of the Antigravity registration (a public installed-app
credential in the source). -/
def ANTIGRAVITY_GOOGLE_CLIENT_SECRET : String :=
  "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"

/-- Client id of the Gemini CLI registration. -/
def GEMINI_GOOGLE_CLIENT_ID : String :=
  "681255809395-oo8ft2oprdrnp9e3aqf6av3hmdib135j.apps.googleusercontent.com"

/-- Client secret of the Gemini CLI registration. -/
def GEMINI_GOOGLE_CLIENT_SECRET : String :=
  "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"

/-- Fallback project id (source line 303). -/
def DEFAULT_PROJECT_ID : String := "rising-fact-p41fc"

/-- Five-hour window length in seconds (source line 304). -/
def GOOGLE_FIVE_HOUR_WINDOW_SECONDS : ℚ := 5 * 60 * 60

/-- Daily window length in seconds (source line 305). -/
def GOOGLE_DAILY_WINDOW_SECONDS : ℚ := 24 * 60 * 60

/-- Primary models/quota host (source line 306). -/
def GOOGLE_PRIMARY_ENDPOINT : String := "https://cloudcode-pa.googleapis.com"

/-- The ordered candidate hosts for the models endpoint (source lines
308-312). -/
def GOOGLE_ENDPOINTS : List String :=
  ["https://daily-cloudcode-pa.sandbox.googleapis.com",
   "https://autopush-cloudcode-pa.sandbox.googleapis.com",
   GOOGLE_PRIMARY_ENDPOINT]

/-- Window label and length chosen for one Google model. -/
structure GoogleWindow where
  label : String
  seconds : ℚ
  deriving DecidableEq

/-- `resolveGoogleWindow` (source lines 321-339): Gemini models are
daily; Antigravity models are reclassified as daily when more than ten
hours remain until reset, else they are the 5h window. -/
def resolveGoogleWindow (now : ℚ) (sourceId : String) (resetAt : Option ℚ) : GoogleWindow :=
  if sourceId = "gemini" then ⟨"daily", GOOGLE_DAILY_WINDOW_SECONDS⟩
  else if sourceId = "antigravity" then
    let remainingSeconds : Option ℚ :=
      match resetAt with
      | some t => some (max 0 (jsRound ((t - now) / 1000)))
      | none => none
    match remainingSeconds with
    | some r =>
      if r > 10 * 60 * 60 then ⟨"daily", GOOGLE_DAILY_WINDOW_SECONDS⟩
      else ⟨"5h", GOOGLE_FIVE_HOUR_WINDOW_SECONDS⟩
    | none => ⟨"5h", GOOGLE_FIVE_HOUR_WINDOW_SECONDS⟩
  else ⟨"daily", GOOGLE_DAILY_WINDOW_SECONDS⟩

/-- One resolvable OAuth auth source for the Google provider.  The
`email` field of an antigravity account is carried but never read by the
module and is omitted. -/
structure GoogleAuthSource where
  sourceId : String
  sourceLabel : String
  accessToken : Option String
  refreshToken : Option String
  projectId : Option String
  expires : Option ℚ
  deriving DecidableEq

/-- `resolveGeminiCliAuth` (source lines 341-364). -/
def resolveGeminiCliAuth (env : QuotaEnv) : Option GoogleAuthSource :=
  let entry := normalizeAuthEntry (getAuthEntry env.auth ["google", "google.oauth"])
  let entryObject := asObject entry
  if ¬ entryObject.truthy then none
  else
    let oauthObject := jsOrElse (asObject (jget entryObject "oauth")) entryObject
    let accessToken :=
      optOr (asNonEmptyString (jget oauthObject "access"))
        (asNonEmptyString (jget oauthObject "token"))
    let refreshParts := parseGoogleRefreshToken (jget oauthObject "refresh")
    if ¬ optStrTruthy accessToken ∧ ¬ optStrTruthy refreshParts.refreshToken then none
    else
      some { sourceId := "gemini",
             sourceLabel := "Gemini",
             accessToken := accessToken,
             refreshToken := refreshParts.refreshToken,
             projectId := optOr refreshParts.projectId refreshParts.managedProjectId,
             expires := toTimestamp env.dateParse (jget oauthObject "expires") }

/-- The antigravity source a single parsed accounts file yields, if any
(the body of the file loop in source lines 367-387). -/
def antigravityFromFile (data : JVal) : Option GoogleAuthSource :=
  match jget data "accounts" with
  | .arr accounts =>
    if accounts.isEmpty then none
    else
      let index : ℚ :=
        match jget data "activeIndex" with
        | .num q => q
        | _ => 0
      let account := jsOrElse (jsIndex accounts index) (jsIndex accounts 0)
      if (jget account "refreshToken").truthy then
        let refreshParts := parseGoogleRefreshToken (jget account "refreshToken")
        some { sourceId := "antigravity",
               sourceLabel := "Antigravity",
               accessToken := none,
               refreshToken := refreshParts.refreshToken,
               projectId :=
                 optOr (asNonEmptyString (jget account "projectId"))
                   (optOr (asNonEmptyString (jget account "managedProjectId"))
                     (optOr refreshParts.projectId refreshParts.managedProjectId)),
               expires := none }
      else none
  | _ => none

/-- `resolveAntigravityAuth` (source lines 366-390): first file (in the
fixed path order) holding a usable account wins. -/
def resolveAntigravityAuth (env : QuotaEnv) : Option GoogleAuthSource :=
  go env.antigravityFiles
where
  go : List JVal → Option GoogleAuthSource
    | [] => none
    | d :: rest =>
      match antigravityFromFile d with
      | some s => some s
      | none => go rest

/-- `resolveGoogleAuthSources` (source lines 392-407). -/
def resolveGoogleAuthSources (env : QuotaEnv) : List GoogleAuthSource :=
  (resolveGeminiCliAuth env).toList ++ (resolveAntigravityAuth env).toList

/-- An OAuth client id/secret pair. -/
structure GoogleOAuthClient where
  clientId : String
  clientSecret : String
  deriving DecidableEq

/-- `resolveGoogleOAuthClient` (source lines 409-421). -/
def resolveGoogleOAuthClient (sourceId : String) : GoogleOAuthClient :=
  if sourceId = "gemini" then
    ⟨GEMINI_GOOGLE_CLIENT_ID, GEMINI_GOOGLE_CLIENT_SECRET⟩
  else
    ⟨ANTIGRAVITY_GOOGLE_CLIENT_ID, ANTIGRAVITY_GOOGLE_CLIENT_SECRET⟩

/-- `refreshGoogleAccessToken` (source lines 423-441).  NOTE: this
function has no `try`/`catch`; a transport failure of the token-endpoint
call or a malformed JSON body propagates as a thrown exception
(`Except.error`).  A non-2xx response and a missing or non-string
`access_token` field give `null`. -/
def refreshGoogleAccessToken (env : QuotaEnv) (refreshToken clientId : String)
    (_clientSecret : String) : Except JsException (Option String) :=
  match env.googleTokenFetch clientId refreshToken with
  | .error e => .error e
  | .ok response =>
    if ¬ response.ok then .ok none
    else
      match response.body with
      | .error e => .error e
      | .ok data =>
        .ok (match jget data "access_token" with
             | .str s => some s
             | _ => none)

/-- `fetchGoogleQuotaBuckets` (source lines 443-465): fully guarded by
`try`/`catch`; any failure, non-2xx status or JSON error gives `null`. -/
def fetchGoogleQuotaBuckets (env : QuotaEnv) (accessToken projectId : String) : Option JVal :=
  match env.googleBucketsFetch accessToken projectId with
  | .error _ => none
  | .ok response =>
    if ¬ response.ok then none
    else
      match response.body with
      | .ok v => some v
      | .error _ => none

/-- The outcome one candidate host contributes to the models failover
loop: its parsed body on a 2xx response with well-formed JSON, `none`
when the call throws, returns non-2xx, or its body fails to parse. -/
def endpointSuccess (fetch : String → FetchResult) (endpoint : String) : Option JVal :=
  match fetch endpoint with
  | .error _ => none
  | .ok response =>
    if response.ok then
      match response.body with
      | .ok v => some v
      | .error _ => none
    else none

/-- The failover loop of `fetchGoogleModels` over the remaining
candidate hosts. -/
def fetchGoogleModelsLoop (fetch : String → FetchResult) : List String → Option JVal
  | [] => none
  | endpoint :: rest =>
    match fetch endpoint with
    | .error _ => fetchGoogleModelsLoop fetch rest
    | .ok response =>
      if response.ok then
        match response.body with
        | .ok v => some v
        | .error _ => fetchGoogleModelsLoop fetch rest
      else fetchGoogleModelsLoop fetch rest

/-- `fetchGoogleModels` (source lines 467-492): try the three candidate
hosts in the fixed order, returning the first parsed 2xx body, `null`
when all of them fail (throw, non-2xx, or unparseable body). -/
def fetchGoogleModels (env : QuotaEnv) (accessToken projectId : String) : Option JVal :=
  fetchGoogleModelsLoop (env.googleModelsFetch accessToken projectId) GOOGLE_ENDPOINTS

/-- `new Date(v).getTime()` on a truthy `resetTime` field: numbers pass
through, strings are parsed by the environment's date parser; an invalid
date yields `NaN`, which every downstream guard treats like the absence
modelled by `none`. -/
def jsNewDateGetTime (env : QuotaEnv) (v : JVal) : Option ℚ :=
  match v with
  | .num q => some q
  | .str s => env.dateParse s
  | _ => none

/-- The `models` accumulator of `fetchGoogleQuota` together with the
per-source error strings. -/
abbrev GoogleAcc := List (String × ModelUsage) × List String

/-- The bucket loop of `fetchGoogleQuota` (source lines 534-563): merge
each bucket carrying a non-empty `modelId` into the models map; the
returned flag says whether anything was merged. -/
def googleMergeBuckets (env : QuotaEnv) (sourceId : String)
    (models : List (String × ModelUsage)) :
    List JVal → List (String × ModelUsage) × Bool
  | [] => (models, false)
  | bucket :: rest =>
    match asNonEmptyString (jget bucket "modelId") with
    | none => googleMergeBuckets env sourceId models rest
    | some modelId =>
      let scopedName :=
        if strStartsWith modelId (sourceId ++ "/") then modelId
        else sourceId ++ "/" ++ modelId
      let remainingFraction := toNumber (jget bucket "remainingFraction")
      let remainingPercent := remainingFraction.map (fun rf => jsRound (rf * 100))
      let usedPercent := remainingPercent.map (fun rp => max 0 (100 - rp))
      let resetAt := toTimestamp env.dateParse (jget bucket "resetTime")
      let window := resolveGoogleWindow env.now sourceId resetAt
      let entry : ModelUsage :=
        ⟨[(window.label, toUsageWindow env usedPercent (some window.seconds) resetAt none)]⟩
      (googleMergeBuckets env sourceId (setKey models scopedName entry) rest).1
        |> (fun m => (m, true))

/-- The models loop of `fetchGoogleQuota` (source lines 566-592): merge
every entry of the payload's `models` object; the `remainingFraction`
here is used only when it is literally a number (`typeof` check, no
string coercion). -/
def googleMergeModels (env : QuotaEnv) (sourceId : String)
    (models : List (String × ModelUsage)) :
    List (String × JVal) → List (String × ModelUsage) × Bool
  | [] => (models, false)
  | (modelName, modelData) :: rest =>
    let scopedName :=
      if strStartsWith modelName (sourceId ++ "/") then modelName
      else sourceId ++ "/" ++ modelName
    let remainingFraction := jget (jget modelData "quotaInfo") "remainingFraction"
    let remainingPercent :=
      match remainingFraction with
      | .num q => some (jsRound (q * 100))
      | _ => none
    let usedPercent := remainingPercent.map (fun rp => max 0 (100 - rp))
    let resetAt :=
      if (jget (jget modelData "quotaInfo") "resetTime").truthy then
        jsNewDateGetTime env (jget (jget modelData "quotaInfo") "resetTime")
      else none
    let window := resolveGoogleWindow env.now sourceId resetAt
    let entry : ModelUsage :=
      ⟨[(window.label, toUsageWindow env usedPercent (some window.seconds) resetAt none)]⟩
    (googleMergeModels env sourceId (setKey models scopedName entry) rest).1
      |> (fun m => (m, true))

/-- `typeof source.expires === 'number' && source.expires <= now`. -/
def googleExpired (now : ℚ) (expires : Option ℚ) : Bool :=
  match expires with
  | some e => decide (e ≤ now)
  | none => false

/-- The per-source body of `fetchGoogleQuota` after the access token has
been resolved (source lines 522-596): a falsy token records a refresh
failure; otherwise the quota buckets (gemini only) and the models
endpoint are queried and merged, and a source contributing no model
records a fetch failure. -/
def googleUseToken (env : QuotaEnv) (source : GoogleAuthSource)
    (acc : GoogleAcc) (accessToken : Option String) : GoogleAcc :=
  let (models, sourceErrors) := acc
  if ¬ optStrTruthy accessToken then
    (models, sourceErrors ++ [source.sourceLabel ++ ": Failed to refresh OAuth token"])
  else
    let token := accessToken.getD ""
    let projectId := source.projectId.getD DEFAULT_PROJECT_ID
    let bucketStep :=
      if source.sourceId = "gemini" then
        let quotaPayload := fetchGoogleQuotaBuckets env token projectId
        let buckets :=
          match quotaPayload with
          | some p =>
            match jget p "buckets" with
            | .arr xs => xs
            | _ => []
          | none => []
        googleMergeBuckets env source.sourceId models buckets
      else (models, false)
    let modelStep :=
      match fetchGoogleModels env token projectId with
      | some payload =>
        googleMergeModels env source.sourceId bucketStep.1
          (objEntries (jsOrElse (jget payload "models") (.obj [])))
      | none => (bucketStep.1, false)
    if bucketStep.2 || modelStep.2 then (modelStep.1, sourceErrors)
    else (modelStep.1, sourceErrors ++ [source.sourceLabel ++ ": Failed to fetch models"])

/-- One iteration of the source loop of `fetchGoogleQuota` (source lines
509-597): refresh the access token when absent or expired — a source
with no refresh token is recorded and skipped, and a throwing refresh
exchange propagates (there is no `try` around it). -/
def googleProcessSource (env : QuotaEnv) (acc : GoogleAcc)
    (source : GoogleAuthSource) : Except JsException GoogleAcc :=
  if ¬ optStrTruthy source.accessToken ∨ googleExpired env.now source.expires then
    match source.refreshToken with
    | none =>
      .ok (acc.1, acc.2 ++ [source.sourceLabel ++ ": Missing refresh token"])
    | some refreshToken =>
      let client := resolveGoogleOAuthClient source.sourceId
      match refreshGoogleAccessToken env refreshToken client.clientId client.clientSecret with
      | .error e => .error e
      | .ok accessToken => .ok (googleUseToken env source acc accessToken)
  else .ok (googleUseToken env source acc source.accessToken)

/-- The source loop of `fetchGoogleQuota`. -/
def googleLoop (env : QuotaEnv) : List GoogleAuthSource → GoogleAcc →
    Except JsException GoogleAcc
  | [], acc => .ok acc
  | source :: rest, acc =>
    match googleProcessSource env acc source with
    | .error e => .error e
    | .ok acc1 => googleLoop env rest acc1

/-- `fetchGoogleQuota` (source lines 494-619): aggregate both OAuth
sources into one models map; `ok:false` with the first recorded source
error when the map stays empty, `ok:true` otherwise. -/
def fetchGoogleQuota (env : QuotaEnv) : Except JsException ProviderResult :=
  let authSources := resolveGoogleAuthSources env
  if authSources.isEmpty then
    .ok (buildResult "google" "Google" false false none (some "Not configured") env.now)
  else
    match googleLoop env authSources ([], []) with
    | .error e => .error e
    | .ok (models, sourceErrors) =>
      if models.isEmpty then
        .ok (buildResult "google" "Google" false true none
          (some (sourceErrors.headD "Failed to fetch models")) env.now)
      else
        .ok (buildResult "google" "Google" true true
          (some { windows := [],
                  models := if models.isEmpty then none else some models })
          none env.now)

/-- Enumerator condition for the Claude providers (source lines 174-177):
truthy-or over the `access` and `token` fields. -/
def claudeListFlag (env : QuotaEnv) : Bool :=
  let a := normalizeAuthEntry (getAuthEntry env.auth ["anthropic", "claude"])
  (jget a "access").truthy || (jget a "token").truthy

/-- Enumerator condition for `codex` (source lines 179-182). -/
def codexListFlag (env : QuotaEnv) : Bool :=
  let a := normalizeAuthEntry (getAuthEntry env.auth ["openai", "codex", "chatgpt"])
  (jget a "access").truthy || (jget a "token").truthy

/-- Enumerator condition for `google` (source lines 184-186). -/
def googleListFlag (env : QuotaEnv) : Bool :=
  (resolveGeminiCliAuth env).isSome || (resolveAntigravityAuth env).isSome

/-- Enumerator condition for `zai-coding-plan` (source lines 188-191). -/
def zaiListFlag (env : QuotaEnv) : Bool :=
  let a := normalizeAuthEntry (getAuthEntry env.auth ["zai-coding-plan", "zai", "z.ai"])
  (jget a "key").truthy || (jget a "token").truthy

/-- Enumerator condition for `kimi-for-coding` (source lines 193-196). -/
def kimiListFlag (env : QuotaEnv) : Bool :=
  let a := normalizeAuthEntry (getAuthEntry env.auth ["kimi-for-coding", "kimi"])
  (jget a "key").truthy || (jget a "token").truthy

/-- Enumerator condition for `openrouter` (source lines 198-201). -/
def openrouterListFlag (env : QuotaEnv) : Bool :=
  let a := normalizeAuthEntry (getAuthEntry env.auth ["openrouter"])
  (jget a "key").truthy || (jget a "token").truthy

/-- Enumerator condition for `nano-gpt` (source lines 203-206). -/
def nanoListFlag (env : QuotaEnv) : Bool :=
  let a := normalizeAuthEntry (getAuthEntry env.auth ["nano-gpt", "nanogpt", "nano_gpt"])
  (jget a "key").truthy || (jget a "token").truthy

/-- Enumerator condition for the two Copilot providers (source lines
208-212). -/
def copilotListFlag (env : QuotaEnv) : Bool :=
  let a := normalizeAuthEntry (getAuthEntry env.auth ["github-copilot", "copilot"])
  (jget a "access").truthy || (jget a "token").truthy

/-- `listConfiguredQuotaProviders` (source lines 170-215).  The source
accumulates into a `Set` and returns `Array.from` of it; since each
branch adds distinct identifiers at most once, the insertion-ordered set
is exactly this concatenation. -/
def listConfiguredQuotaProviders (env : QuotaEnv) : List String :=
  (if claudeListFlag env then ["claude"] else []) ++
  (if codexListFlag env then ["codex"] else []) ++
  (if googleListFlag env then ["google"] else []) ++
  (if zaiListFlag env then ["zai-coding-plan"] else []) ++
  (if kimiListFlag env then ["kimi-for-coding"] else []) ++
  (if openrouterListFlag env then ["openrouter"] else []) ++
  (if nanoListFlag env then ["nano-gpt"] else []) ++
  (if copilotListFlag env then ["github-copilot", "github-copilot-addon"] else [])

/-- The `try`/`catch` skeleton shared verbatim by every simple fetcher
(HTTP call, non-2xx check, JSON parse, catch-all): a thrown transport
error or JSON error is converted to the caught exception's message, a
non-2xx response to `API error: <status>`, and a parsed body to an
`ok:true` result carrying the fetcher's usage payload. -/
def runFetcher (providerId providerName : String) (now : ℚ) (fetch : FetchResult)
    (mkUsage : JVal → Usage) : ProviderResult :=
  match fetch with
  | .error e =>
    buildResult providerId providerName false true none (some (jsErrorMessage e)) now
  | .ok response =>
    if ¬ response.ok then
      buildResult providerId providerName false true none
        (some ("API error: " ++ toString response.status)) now
    else
      match response.body with
      | .error e =>
        buildResult providerId providerName false true none (some (jsErrorMessage e)) now
      | .ok payload =>
        buildResult providerId providerName true true (some (mkUsage payload)) none now

/-- The window map built by `fetchClaudeQuota` from a parsed usage
payload (source lines 660-694). -/
def claudeWindows (env : QuotaEnv) (payload : JVal) : List (String × UsageWindow) :=
  let fiveHour := jsOrElse (jget payload "five_hour") .null
  let sevenDay := jsOrElse (jget payload "seven_day") .null
  let sevenDaySonnet := jsOrElse (jget payload "seven_day_sonnet") .null
  let sevenDayOpus := jsOrElse (jget payload "seven_day_opus") .null
  let w1 :=
    if fiveHour.truthy then
      setKey [] "5h" (toUsageWindow env (toNumber (jget fiveHour "utilization")) none
        (toTimestamp env.dateParse (jget fiveHour "resets_at")) none)
    else []
  let w2 :=
    if sevenDay.truthy then
      setKey w1 "7d" (toUsageWindow env (toNumber (jget sevenDay "utilization")) none
        (toTimestamp env.dateParse (jget sevenDay "resets_at")) none)
    else w1
  let w3 :=
    if sevenDaySonnet.truthy then
      setKey w2 "7d-sonnet" (toUsageWindow env (toNumber (jget sevenDaySonnet "utilization")) none
        (toTimestamp env.dateParse (jget sevenDaySonnet "resets_at")) none)
    else w2
  if sevenDayOpus.truthy then
    setKey w3 "7d-opus" (toUsageWindow env (toNumber (jget sevenDayOpus "utilization")) none
      (toTimestamp env.dateParse (jget sevenDayOpus "resets_at")) none)
  else w3

/-- `fetchClaudeQuota` (source lines 626-712). -/
def fetchClaudeQuota (env : QuotaEnv) : ProviderResult :=
  let entry := normalizeAuthEntry (getAuthEntry env.auth ["anthropic", "claude"])
  let accessToken := jsOrElse (jget entry "access") (jget entry "token")
  if ¬ accessToken.truthy then
    buildResult "claude" "Claude" false false none (some "Not configured") env.now
  else
    runFetcher "claude" "Claude" env.now env.claudeFetch
      (fun payload => { windows := claudeWindows env payload, models := none })

/-- The window map built by `fetchCodexQuota` (source lines 751-785),
including the synthesized credits label. -/
def codexWindows (env : QuotaEnv) (payload : JVal) : List (String × UsageWindow) :=
  let primary := jsOrElse (jget (jget payload "rate_limit") "primary_window") .null
  let secondary := jsOrElse (jget (jget payload "rate_limit") "secondary_window") .null
  let credits := jsOrElse (jget payload "credits") .null
  let w1 :=
    if primary.truthy then
      setKey [] "5h" (toUsageWindow env (toNumber (jget primary "used_percent"))
        (toNumber (jget primary "limit_window_seconds"))
        (toTimestamp env.dateParse (jget primary "reset_at")) none)
    else []
  let w2 :=
    if secondary.truthy then
      setKey w1 "weekly" (toUsageWindow env (toNumber (jget secondary "used_percent"))
        (toNumber (jget secondary "limit_window_seconds"))
        (toTimestamp env.dateParse (jget secondary "reset_at")) none)
    else w1
  if credits.truthy then
    let balance := toNumber (jget credits "balance")
    let unlimited := (jget credits "unlimited").truthy
    let label :=
      if unlimited then some "Unlimited"
      else
        match balance with
        | some b => some ("$" ++ jsToFixed2 b ++ " remaining")
        | none => none
    setKey w2 "credits" (toUsageWindow env none none none label)
  else w2

/-- `fetchCodexQuota` (source lines 714-803).  The stored `accountId` is
only ever forwarded as a request header and is not observable in the
result. -/
def fetchCodexQuota (env : QuotaEnv) : ProviderResult :=
  let entry := normalizeAuthEntry (getAuthEntry env.auth ["openai", "codex", "chatgpt"])
  let accessToken := jsOrElse (jget entry "access") (jget entry "token")
  if ¬ accessToken.truthy then
    buildResult "codex" "Codex" false false none (some "Not configured") env.now
  else
    runFetcher "codex" "Codex" env.now env.codexFetch
      (fun payload => { windows := codexWindows env payload, models := none })

/-- The `addWindow` closure of `buildCopilotWindows` (source lines
810-826): the used percentage is guarded by the truthiness of the
coerced entitlement (so `0` and `null` both suppress the division),
while the value label only requires both coercions to be non-null. -/
def copilotAddWindow (env : QuotaEnv) (resetAt : Option ℚ) (label : String)
    (snapshot : JVal) (windows : List (String × UsageWindow)) :
    List (String × UsageWindow) :=
  if ¬ snapshot.truthy then windows
  else
    let entitlement := toNumber (jget snapshot "entitlement")
    let remaining := toNumber (jget snapshot "remaining")
    let usedPercent : Option ℚ :=
      match entitlement, remaining with
      | some e, some r => if e = 0 then none else some (max 0 (min 100 (100 - r / e * 100)))
      | _, _ => none
    let valueLabel : Option String :=
      match entitlement, remaining with
      | some e, some r => some (jsToFixed0 r ++ " / " ++ jsToFixed0 e ++ " left")
      | _, _ => none
    setKey windows label (toUsageWindow env usedPercent none resetAt valueLabel)

/-- `buildCopilotWindows` (source lines 805-833). -/
def buildCopilotWindows (env : QuotaEnv) (payload : JVal) : List (String × UsageWindow) :=
  let quota := jsOrElse (jget payload "quota_snapshots") (.obj [])
  let resetAt := toTimestamp env.dateParse (jget payload "quota_reset_date")
  let w1 := copilotAddWindow env resetAt "chat" (jget quota "chat") []
  let w2 := copilotAddWindow env resetAt "completions" (jget quota "completions") w1
  copilotAddWindow env resetAt "premium" (jget quota "premium_interactions") w2

/-- `fetchCopilotQuota` (source lines 835-888). -/
def fetchCopilotQuota (env : QuotaEnv) : ProviderResult :=
  let entry := normalizeAuthEntry (getAuthEntry env.auth ["github-copilot", "copilot"])
  let accessToken := jsOrElse (jget entry "access") (jget entry "token")
  if ¬ accessToken.truthy then
    buildResult "github-copilot" "GitHub Copilot" false false none (some "Not configured") env.now
  else
    runFetcher "github-copilot" "GitHub Copilot" env.now env.copilotFetch
      (fun payload => { windows := buildCopilotWindows env payload, models := none })

/-- `fetchCopilotAddonQuota` (source lines 890-946): same upstream call,
but the result is narrowed to the `premium` window when present. -/
def fetchCopilotAddonQuota (env : QuotaEnv) : ProviderResult :=
  let entry := normalizeAuthEntry (getAuthEntry env.auth ["github-copilot", "copilot"])
  let accessToken := jsOrElse (jget entry "access") (jget entry "token")
  if ¬ accessToken.truthy then
    buildResult "github-copilot-addon" "GitHub Copilot Add-on" false false none
      (some "Not configured") env.now
  else
    runFetcher "github-copilot-addon" "GitHub Copilot Add-on" env.now env.copilotAddonFetch
      (fun payload =>
        let windows := buildCopilotWindows env payload
        let premium :=
          match lookupKey windows "premium" with
          | some w => [("premium", w)]
          | none => windows
        { windows := premium, models := none })

/-- The rate-limit entries loop of `fetchKimiQuota` (source lines
998-1015), including the 5-hour relabeling special case. -/
def kimiLimitsLoop (env : QuotaEnv) (windows : List (String × UsageWindow)) :
    List JVal → List (String × UsageWindow)
  | [] => windows
  | l :: rest =>
    let window := jget l "window"
    let detail := jget l "detail"
    let rawLabel := durationToLabel (jget window "duration") (jget window "timeUnit")
    let windowSeconds := durationToSeconds (jget window "duration") (jget window "timeUnit")
    let label :=
      if windowSeconds = some (5 * 60 * 60) then "Rate Limit (" ++ rawLabel ++ ")"
      else rawLabel
    let total := toNumber (jget detail "limit")
    let remaining := toNumber (jget detail "remaining")
    let usedPercent : Option ℚ :=
      match total, remaining with
      | some t, some r => if t = 0 then none else some (max 0 (min 100 (100 - r / t * 100)))
      | _, _ => none
    kimiLimitsLoop env
      (setKey windows label (toUsageWindow env usedPercent windowSeconds
        (toTimestamp env.dateParse (jget detail "resetTime")) none)) rest

/-- The window map built by `fetchKimiQuota` (source lines 982-1015). -/
def kimiWindows (env : QuotaEnv) (payload : JVal) : List (String × UsageWindow) :=
  let usage := jsOrElse (jget payload "usage") .null
  let w1 :=
    if usage.truthy then
      let limit := toNumber (jget usage "limit")
      let remaining := toNumber (jget usage "remaining")
      let usedPercent : Option ℚ :=
        match limit, remaining with
        | some t, some r => if t = 0 then none else some (max 0 (min 100 (100 - r / t * 100)))
        | _, _ => none
      setKey [] "weekly" (toUsageWindow env usedPercent none
        (toTimestamp env.dateParse (jget usage "resetTime")) none)
    else []
  let limits :=
    match jget payload "limits" with
    | .arr xs => xs
    | _ => []
  kimiLimitsLoop env w1 limits

/-- `fetchKimiQuota` (source lines 948-1033). -/
def fetchKimiQuota (env : QuotaEnv) : ProviderResult :=
  let entry := normalizeAuthEntry (getAuthEntry env.auth ["kimi-for-coding", "kimi"])
  let apiKey := jsOrElse (jget entry "key") (jget entry "token")
  if ¬ apiKey.truthy then
    buildResult "kimi-for-coding" "Kimi for Coding" false false none
      (some "Not configured") env.now
  else
    runFetcher "kimi-for-coding" "Kimi for Coding" env.now env.kimiFetch
      (fun payload => { windows := kimiWindows env payload, models := none })

/-- The single credits window of `fetchOpenRouterQuota` (source lines
1069-1088). -/
def openrouterWindows (env : QuotaEnv) (payload : JVal) : List (String × UsageWindow) :=
  let credits := jsOrElse (jget payload "data") (.obj [])
  let totalCredits := toNumber (jget credits "total_credits")
  let totalUsage := toNumber (jget credits "total_usage")
  let remaining : Option ℚ :=
    match totalCredits, totalUsage with
    | some c, some u => some (max 0 (c - u))
    | _, _ => none
  let usedPercent : Option ℚ :=
    match totalCredits, totalUsage with
    | some c, some u => if c = 0 then none else some (max 0 (min 100 (u / c * 100)))
    | _, _ => none
  let valueLabel := remaining.map (fun r => "$" ++ jsToFixed2 r ++ " remaining")
  [("credits", toUsageWindow env usedPercent none none valueLabel)]

/-- `fetchOpenRouterQuota` (source lines 1035-1106). -/
def fetchOpenRouterQuota (env : QuotaEnv) : ProviderResult :=
  let entry := normalizeAuthEntry (getAuthEntry env.auth ["openrouter"])
  let apiKey := jsOrElse (jget entry "key") (jget entry "token")
  if ¬ apiKey.truthy then
    buildResult "openrouter" "OpenRouter" false false none (some "Not configured") env.now
  else
    runFetcher "openrouter" "OpenRouter" env.now env.openrouterFetch
      (fun payload => { windows := openrouterWindows env payload, models := none })

/-- `normalizeTimestamp` (source lines 1108-1111): numbers below `10^12`
are epoch seconds and scaled; non-numbers give `null`. -/
def normalizeTimestamp (value : JVal) : Option ℚ :=
  match value with
  | .num q => if q < 1000000000000 then some (q * 1000) else some q
  | _ => none

/-- The `ZAI_TOKEN_WINDOW_SECONDS` table `{ 3: 3600 }` (source line
1113): JS property lookup coerces the key to a string, so the numeric
unit `3` and the string `"3"` both hit the entry. -/
def zaiUnitSeconds (unit : JVal) : Option ℚ :=
  match unit with
  | .num q => if q = 3 then some 3600 else none
  | .str s => if s = "3" then some 3600 else none
  | _ => none

/-- `resolveWindowSeconds` (source lines 1115-1120).  The JS product
`unitSeconds * limit.number` coerces `limit.number` to a number; a `NaN`
outcome is modelled as `null`. -/
def resolveWindowSeconds (limit : JVal) : Option ℚ :=
  if ¬ limit.truthy ∨ ¬ (jget limit "number").truthy then none
  else
    match zaiUnitSeconds (jget limit "unit") with
    | none => none
    | some unitSeconds => (toNumber (jget limit "number")).map (fun n => unitSeconds * n)

/-- `resolveWindowLabel` (source lines 1122-1132): days (with `7d`
renamed `weekly`), hours, or raw seconds.  The JS test
`ws % n === 0` is expressed as `n * ⌊ws / n⌋ = ws`, which agrees with it
on every exact rational. -/
def resolveWindowLabel (windowSeconds : Option ℚ) : String :=
  match windowSeconds with
  | none => "tokens"
  | some ws =>
    if ws = 0 then "tokens"
    else if 86400 * jsFloor (ws / 86400) = ws then
      if ws / 86400 = 7 then "weekly" else ratToJsString (ws / 86400) ++ "d"
    else if 3600 * jsFloor (ws / 3600) = ws then ratToJsString (ws / 3600) ++ "h"
    else ratToJsString ws ++ "s"

/-- `limits.find((limit) => limit?.type === 'TOKENS_LIMIT')` (source
line 1170). -/
def zaiFindTokensLimit : List JVal → Option JVal
  | [] => none
  | l :: rest =>
    match jget l "type" with
    | .str s => if s = "TOKENS_LIMIT" then some l else zaiFindTokensLimit rest
    | _ => zaiFindTokensLimit rest

/-- `typeof tokensLimit?.percentage === 'number' ? tokensLimit.percentage
: null` (source line 1174): the upstream percentage is passed through
exactly when it is a number and is `null` in every other case. -/
def zaiPercentage (tokensLimit : JVal) : Option ℚ :=
  match jget tokensLimit "percentage" with
  | .num q => some q
  | _ => none

/-- `tokensLimit?.nextResetTime ? normalizeTimestamp(...) : null`
(source line 1173). -/
def zaiResetAt (tokensLimit : JVal) : Option ℚ :=
  if (jget tokensLimit "nextResetTime").truthy then
    normalizeTimestamp (jget tokensLimit "nextResetTime")
  else none

/-- `Array.isArray(payload?.data?.limits) ? payload.data.limits : []`
(source line 1169). -/
def zaiLimits (payload : JVal) : List JVal :=
  match jget (jget payload "data") "limits" with
  | .arr xs => xs
  | _ => []

/-- The window map built by `fetchZaiQuota` (source lines 1168-1183). -/
def zaiWindows (env : QuotaEnv) (payload : JVal) : List (String × UsageWindow) :=
  match zaiFindTokensLimit (zaiLimits payload) with
  | none => []
  | some tokensLimit =>
    let windowSeconds := resolveWindowSeconds tokensLimit
    [(resolveWindowLabel windowSeconds,
      toUsageWindow env (zaiPercentage tokensLimit) windowSeconds (zaiResetAt tokensLimit) none)]

/-- `fetchZaiQuota` (source lines 1134-1201). -/
def fetchZaiQuota (env : QuotaEnv) : ProviderResult :=
  let entry := normalizeAuthEntry (getAuthEntry env.auth ["zai-coding-plan", "zai", "z.ai"])
  let apiKey := jsOrElse (jget entry "key") (jget entry "token")
  if ¬ apiKey.truthy then
    buildResult "zai-coding-plan" "z.ai" false false none (some "Not configured") env.now
  else
    runFetcher "zai-coding-plan" "z.ai" env.now env.zaiFetch
      (fun payload => { windows := zaiWindows env payload, models := none })

/-- Daily window length of the NanoGPT provider (source line 1203). -/
def NANO_GPT_DAILY_WINDOW_SECONDS : ℚ := 86400

/-- `v === s` with a string literal on the right. -/
def jsStrictEqStr (v : JVal) (s : String) : Bool :=
  match v with
  | .str t => t = s
  | _ => false

/-- Used percentage of one NanoGPT tier (source lines 1247-1257 and
1269-1279): a numeric pre-normalized `percentUsed` fraction is scaled and
clamped; otherwise a used/limit quotient guarded against a non-positive
limit. -/
def nanoTierUsedPercent (tier : JVal) (limitKey : String) : Option ℚ :=
  match jget tier "percentUsed" with
  | .num p => some (max 0 (min 100 (p * 100)))
  | _ =>
    let used := toNumber (jget tier "used")
    let limit := toNumber (jsOrElse (jget tier "limit") (jget (jget tier "limits") limitKey))
    match used, limit with
    | some u, some l => if 0 < l then some (max 0 (min 100 (u / l * 100))) else none
    | _, _ => none

/-- The window map built by `fetchNanoGptQuota` (source lines
1239-1288): daily and monthly tiers, with a non-`active` account state
surfaced as a bracketed value label. -/
def nanoWindows (env : QuotaEnv) (payload : JVal) : List (String × UsageWindow) :=
  let period := jsOrElse (jget payload "period") .null
  let daily := jsOrElse (jget payload "daily") .null
  let monthly := jsOrElse (jget payload "monthly") .null
  let state := jsOrElse (jget payload "state") (.str "active")
  let stateLabel : Option String :=
    if ¬ jsStrictEqStr state "active" then some ("(" ++ jvalTemplate state ++ ")")
    else none
  let w1 :=
    if daily.truthy then
      setKey [] "daily" (toUsageWindow env (nanoTierUsedPercent daily "daily")
        (some NANO_GPT_DAILY_WINDOW_SECONDS)
        (toTimestamp env.dateParse (jget daily "resetAt")) stateLabel)
    else []
  if monthly.truthy then
    setKey w1 "monthly" (toUsageWindow env (nanoTierUsedPercent monthly "monthly") none
      (toTimestamp env.dateParse (jsOrElse (jget monthly "resetAt")
        (jget period "currentPeriodEnd"))) stateLabel)
  else w1

/-- `fetchNanoGptQuota` (source lines 1205-1306). -/
def fetchNanoGptQuota (env : QuotaEnv) : ProviderResult :=
  let entry := normalizeAuthEntry (getAuthEntry env.auth ["nano-gpt", "nanogpt", "nano_gpt"])
  let apiKey := jsOrElse (jget entry "key") (jget entry "token")
  if ¬ apiKey.truthy then
    buildResult "nano-gpt" "NanoGPT" false false none (some "Not configured") env.now
  else
    runFetcher "nano-gpt" "NanoGPT" env.now env.nanoFetch
      (fun payload => { windows := nanoWindows env payload, models := none })

/-- The closed set of provider identifiers the dispatch facade routes
(the nine `case` labels of source lines 1308-1337). -/
def knownQuotaProviderIds : List String :=
  ["claude", "codex", "github-copilot", "github-copilot-addon", "google",
   "kimi-for-coding", "nano-gpt", "openrouter", "zai-coding-plan"]

/-- `fetchQuotaForProvider` (source lines 1308-1337): route a provider
identifier to its fetcher; unknown identifiers get the uniform
`Unsupported provider` result.  All fetchers except the Google one are
total; the Google branch can propagate a thrown refresh exchange. -/
def fetchQuotaForProvider (env : QuotaEnv) (providerId : String) :
    Except JsException ProviderResult :=
  if providerId = "claude" then .ok (fetchClaudeQuota env)
  else if providerId = "codex" then .ok (fetchCodexQuota env)
  else if providerId = "github-copilot" then .ok (fetchCopilotQuota env)
  else if providerId = "github-copilot-addon" then .ok (fetchCopilotAddonQuota env)
  else if providerId = "google" then fetchGoogleQuota env
  else if providerId = "kimi-for-coding" then .ok (fetchKimiQuota env)
  else if providerId = "nano-gpt" then .ok (fetchNanoGptQuota env)
  else if providerId = "openrouter" then .ok (fetchOpenRouterQuota env)
  else if providerId = "zai-coding-plan" then .ok (fetchZaiQuota env)
  else
    .ok (buildResult providerId providerId false false none
      (some "Unsupported provider") env.now)

/-- An inert environment: empty credential store, no account files, all
transports failing, clock at epoch. -/
def envDefault : QuotaEnv :=
  { auth := [],
    antigravityFiles := [],
    now := 0,
    dateParse := fun _ => none,
    formatReset := fun _ => none,
    claudeFetch := .error (.error "offline"),
    codexFetch := .error (.error "offline"),
    copilotFetch := .error (.error "offline"),
    copilotAddonFetch := .error (.error "offline"),
    kimiFetch := .error (.error "offline"),
    openrouterFetch := .error (.error "offline"),
    zaiFetch := .error (.error "offline"),
    nanoFetch := .error (.error "offline"),
    googleTokenFetch := fun _ _ => .error (.error "offline"),
    googleBucketsFetch := fun _ _ => .error (.error "offline"),
    googleModelsFetch := fun _ _ _ => .error (.error "offline") }

/-- The error/`ok` discipline every dispatched result is claimed to obey
(the provable part): a successful result carries no error, and a present
error string is non-empty and marks a failed result. -/
def resultErrorDiscipline (r : ProviderResult) : Prop :=
  (r.ok = true → r.error = none) ∧
  (∀ e, r.error = some e → e ≠ "" ∧ r.ok = false)

/-- A stored credential value is "clean" when it is absent or truthy —
i.e. it is not a falsy-but-present value such as the empty string, on
which the enumerator's `||` and the fetchers' `??` disagree. -/
def cleanVal (v : JVal) : Bool :=
  v.isNullish || v.truthy

/-- A stored entry is clean when its `access`, `token` and `key` fields
are all clean (non-objects carry no such fields). -/
def cleanEntry (v : JVal) : Bool :=
  match v with
  | .obj fs =>
    cleanVal (jgetList fs "access") && cleanVal (jgetList fs "token") &&
      cleanVal (jgetList fs "key")
  | _ => true

/-- A credential store is clean when every stored entry is. -/
def cleanStore (auth : AuthStore) : Bool :=
  auth.all (fun p => cleanEntry p.2)

/-- Store in which the `anthropic` entry has an empty-string `access`
field shadowing a usable `token` — the disagreement input for the
enumerator/fetcher comparison. -/
def envClaudeEmptyAccess : QuotaEnv :=
  { envDefault with
    auth := [("anthropic", .obj [("access", .str ""), ("token", .str "x")])] }

/-- A clean store holding only a bare-string Kimi key. -/
def envKimiToken : QuotaEnv :=
  { envDefault with auth := [("kimi", .str "kk")] }

/-- Claude configured, but the usage call throws an `Error` whose
`message` is the empty string. -/
def envClaudeEmptyError : QuotaEnv :=
  { envDefault with
    auth := [("anthropic", .str "tok")],
    claudeFetch := .error (.error "") }

/-- A z.ai tokens-limit entry with no `percentage` field but with
usable `usage`/`limit` numbers a ratio could have been computed from. -/
def zaiLimitNoPct : JVal :=
  .obj [("type", .str "TOKENS_LIMIT"), ("number", .num 1), ("unit", .num 3),
        ("usage", .num 50), ("limit", .num 100)]

/-- Usage payload containing only `zaiLimitNoPct`. -/
def zaiPayloadNoPct : JVal :=
  .obj [("data", .obj [("limits", .arr [zaiLimitNoPct])])]

/-- z.ai configured and returning `zaiPayloadNoPct`. -/
def envZaiNoPct : QuotaEnv :=
  { envDefault with
    auth := [("zai", .str "k")],
    zaiFetch := .ok ⟨true, 200, .ok zaiPayloadNoPct⟩ }

/-- A z.ai tokens-limit entry whose upstream `percentage` is the number
30. -/
def zaiLimitPct : JVal :=
  .obj [("type", .str "TOKENS_LIMIT"), ("number", .num 1), ("unit", .num 3),
        ("percentage", .num 30)]

/-- Usage payload containing only `zaiLimitPct`. -/
def zaiPayloadPct : JVal :=
  .obj [("data", .obj [("limits", .arr [zaiLimitPct])])]

/-- z.ai configured and returning `zaiPayloadPct`. -/
def envZaiPct : QuotaEnv :=
  { envDefault with
    auth := [("zai", .str "k")],
    zaiFetch := .ok ⟨true, 200, .ok zaiPayloadPct⟩ }

/-- Copilot chat snapshot with entitlement 0 and remaining 5. -/
def copilotPayloadZero : JVal :=
  .obj [("quota_snapshots",
    .obj [("chat", .obj [("entitlement", .num 0), ("remaining", .num 5)])])]

/-- Quota-bucket payload carrying one model with no fraction and no
reset time. -/
def googleBucketsPayload : JVal :=
  .obj [("buckets", .arr [.obj [("modelId", .str "gemini-pro")]])]

/-- Google environment in which the Gemini source holds a live access
token whose bucket query succeeds, while the Antigravity source's
refresh exchange cleanly fails (non-2xx) and every models endpoint
returns non-2xx. -/
def envGooglePartial : QuotaEnv :=
  { envDefault with
    auth := [("google", .obj [("access", .str "tok")])],
    antigravityFiles := [.obj [("accounts", .arr [.obj [("refreshToken", .str "rt2")]])]],
    googleBucketsFetch := fun accessToken _ =>
      if accessToken = "tok" then .ok ⟨true, 200, .ok googleBucketsPayload⟩
      else .error .thrown,
    googleTokenFetch := fun _ refreshToken =>
      if refreshToken = "rt2" then .ok ⟨false, 500, .ok .null⟩ else .error .thrown,
    googleModelsFetch := fun _ _ _ => .ok ⟨false, 500, .ok .null⟩ }

/-- The models map the partial-success environment produces: one entry
from the Gemini bucket query. -/
def googlePartialModels : List (String × ModelUsage) :=
  [("gemini/gemini-pro",
    ⟨[("daily",
      { usedPercent := none, remainingPercent := none,
        windowSeconds := some GOOGLE_DAILY_WINDOW_SECONDS,
        resetAfterSeconds := none, resetAt := none, resetAtFormatted := none,
        resetAfterFormatted := none, valueLabel := none })]⟩)]

/-- The per-source errors the partial-success environment records: only
the failed Antigravity refresh. -/
def googlePartialErrors : List String :=
  ["Antigravity: Failed to refresh OAuth token"]

/-- The provider result of the partial-success environment. -/
def googlePartialResult : ProviderResult :=
  buildResult "google" "Google" true true
    (some { windows := [],
            models := if googlePartialModels.isEmpty then none
                      else some googlePartialModels })
    none envGooglePartial.now

/-- Google environment whose only source needs a refresh and whose
token-endpoint call throws. -/
def envGoogleThrow : QuotaEnv :=
  { envDefault with
    auth := [("google", .obj [("refresh", .str "rt")])],
    googleTokenFetch := fun _ _ => .error (.error "network down") }

theorem lookupKey_setKey {α : Type} (ws : List (String × α)) (k : String) (v : α) :
    lookupKey (setKey ws k v) k = some v := by
  induction ws with
  | nil => simp [setKey, lookupKey]
  | cons p rest ih =>
    by_cases h : p.1 = k
    · simp [setKey, lookupKey, h]
    · simp [setKey, lookupKey, h, ih]

theorem fetchGoogleModelsLoop_eq_findSome (f : String → FetchResult) (es : List String) :
    fetchGoogleModelsLoop f es = es.findSome? (endpointSuccess f) := by
  induction es with
  | nil => rfl
  | cons e rest ih =>
    cases hfe : f e with
    | error err =>
      simp [fetchGoogleModelsLoop, List.findSome?_cons, endpointSuccess, hfe, ih]
    | ok resp =>
      cases hok : resp.ok with
      | false =>
        simp [fetchGoogleModelsLoop, List.findSome?_cons, endpointSuccess, hfe, hok, ih]
      | true =>
        cases hb : resp.body with
        | error err =>
          simp [fetchGoogleModelsLoop, List.findSome?_cons, endpointSuccess, hfe, hok, hb, ih]
        | ok v =>
          simp [fetchGoogleModelsLoop, List.findSome?_cons, endpointSuccess, hfe, hok, hb]

/-- Claim C7: the Google models fetch tries the three candidate base
URLs in their fixed list order and returns the parsed JSON body of the
first endpoint that succeeds (2xx response with a parseable body); an
endpoint that throws — including a throwing `response.json()` — or
returns non-2xx is abandoned in favour of the next, and when every
candidate fails the result is `null`.  This is exactly first-some
selection of `endpointSuccess` over `GOOGLE_ENDPOINTS`, which also shows
the result depends only on the succeeding endpoint's body, not on which
endpoint it was. -/
theorem fetchGoogleModels_first_success (env : QuotaEnv) (accessToken projectId : String) :
    fetchGoogleModels env accessToken projectId =
      List.findSome? (endpointSuccess (env.googleModelsFetch accessToken projectId))
        GOOGLE_ENDPOINTS :=
  fetchGoogleModelsLoop_eq_findSome _ _

/-- Claim C2, counterexample: the window builder applies no upper clamp,
so `usedPercent = -10` yields `remainingPercent = 110 > 100`, refuting
`remainingPercent = clamp(100 - usedPercent, 0, 100)` (which would give
100) and "never exceeds 100". -/
theorem toUsageWindow_remaining_exceeds_100 :
    (toUsageWindow envDefault (some (-10)) none none none).remainingPercent = some 110 ∧
    ¬ ((110 : ℚ) ≤ 100) := by
  constructor
  · show some (max 0 (100 - (-10))) = some 110
    norm_num [max_def]
  · norm_num

/-- Claim C2 (amended): for every window built with non-null
`usedPercent = u`, `remainingPercent` is `max 0 (100 - u)` — clamped
below at 0 only; it exceeds 100 exactly when `u` is negative. -/
theorem toUsageWindow_remaining_lower_clamp (env : QuotaEnv) (u : ℚ)
    (ws ra : Option ℚ) (vl : Option String) :
    (toUsageWindow env (some u) ws ra vl).remainingPercent = some (max 0 (100 - u)) ∧
    (100 < max 0 (100 - u) ↔ u < 0) := by
  constructor
  · rfl
  · rw [lt_max_iff]
    constructor
    · intro h
      rcases h with h | h
      · linarith
      · linarith
    · intro h
      right
      linarith

/-- Claim C9: the timestamp coercion returns `null` for every falsy
input — including the number `0` and the empty string, so a legitimate
epoch-zero instant is coerced to "no timestamp" — while any other
number below `10^12` (negative ones included) is scaled by 1000 and any
number at or above `10^12` passes through unchanged. -/
theorem toTimestamp_falsy_and_scaling (dp : String → Option ℚ) :
    (∀ v : JVal, v.truthy = false → toTimestamp dp v = none) ∧
    (∀ q : ℚ, q ≠ 0 → q < 1000000000000 → toTimestamp dp (.num q) = some (q * 1000)) ∧
    (∀ q : ℚ, 1000000000000 ≤ q → toTimestamp dp (.num q) = some q) := by
  refine ⟨?_, ?_, ?_⟩
  · intro v hv
    simp [toTimestamp, hv]
  · intro q hq hlt
    have ht : (JVal.num q).truthy = true := by simp [JVal.truthy, hq]
    simp [toTimestamp, ht, hlt]
  · intro q hge
    have hq : q ≠ 0 := by
      intro h
      rw [h] at hge
      norm_num at hge
    have ht : (JVal.num q).truthy = true := by simp [JVal.truthy, hq]
    have hnlt : ¬ (q < 1000000000000) := not_lt.mpr hge
    simp [toTimestamp, ht, hnlt]

theorem toTimestamp_falsy_and_scaling_witness :
    toTimestamp (fun _ => none) (JVal.num 0) = none ∧
    toTimestamp (fun _ => none) (JVal.str "") = none ∧
    toTimestamp (fun _ => none) JVal.null = none ∧
    toTimestamp (fun _ => none) (JVal.num (-5)) = some (-5000) ∧
    toTimestamp (fun _ => none) (JVal.num 2000000000000) = some 2000000000000 := by
  have h := toTimestamp_falsy_and_scaling (fun _ => none)
  refine ⟨h.1 _ ?_, h.1 _ ?_, h.1 _ ?_, ?_, h.2.2 _ ?_⟩
  · norm_num [JVal.truthy]
  · rfl
  · rfl
  · have h5 := h.2.1 (-5) (by norm_num) (by norm_num)
    rw [h5]
    norm_num
  · norm_num

/-- Claim C8: every identifier outside the closed nine-element set gets,
without throwing, the uniform result `ok:false`, `configured:false`,
`error:"Unsupported provider"`, `usage:null`, with both `providerId` and
`providerName` equal to the input. -/
theorem fetchQuotaForProvider_unsupported (env : QuotaEnv) (providerId : String)
    (h : providerId ∉ knownQuotaProviderIds) :
    fetchQuotaForProvider env providerId =
      .ok { providerId := providerId, providerName := providerId, ok := false,
            configured := false, usage := none,
            error := some "Unsupported provider", fetchedAt := env.now } := by
  have h1 : ¬ (providerId = "claude") := fun he => h (by rw [he]; decide)
  have h2 : ¬ (providerId = "codex") := fun he => h (by rw [he]; decide)
  have h3 : ¬ (providerId = "github-copilot") := fun he => h (by rw [he]; decide)
  have h4 : ¬ (providerId = "github-copilot-addon") := fun he => h (by rw [he]; decide)
  have h5 : ¬ (providerId = "google") := fun he => h (by rw [he]; decide)
  have h6 : ¬ (providerId = "kimi-for-coding") := fun he => h (by rw [he]; decide)
  have h7 : ¬ (providerId = "nano-gpt") := fun he => h (by rw [he]; decide)
  have h8 : ¬ (providerId = "openrouter") := fun he => h (by rw [he]; decide)
  have h9 : ¬ (providerId = "zai-coding-plan") := fun he => h (by rw [he]; decide)
  simp only [fetchQuotaForProvider, if_neg h1, if_neg h2, if_neg h3, if_neg h4,
    if_neg h5, if_neg h6, if_neg h7, if_neg h8, if_neg h9]
  rfl

theorem fetchQuotaForProvider_unsupported_witness :
    fetchQuotaForProvider envDefault "does-not-exist" =
      .ok { providerId := "does-not-exist", providerName := "does-not-exist",
            ok := false, configured := false, usage := none,
            error := some "Unsupported provider", fetchedAt := 0 } :=
  fetchQuotaForProvider_unsupported envDefault "does-not-exist" (by decide)

/-- Claim C1: refuted by the code.  The Google fetcher performs the
OAuth refresh exchange with no surrounding `try`, so a throwing
token-endpoint call escapes `fetchQuotaForProvider` as a rejection
instead of resolving to a `ProviderResult`: in this environment the only
auth source needs a refresh and the token call throws
`Error("network down")`, and that exact exception reaches the caller. -/
theorem google_refresh_throw_escapes :
    fetchQuotaForProvider envGoogleThrow "google" =
      .error (.error "network down") := rfl

/-- Claim C6, counterexample: with Claude configured and the usage call
throwing an `Error` whose `message` is the empty string, the catch-all
hands `buildResult` the empty error string, whose truthiness spread
drops the `error` key — an `ok:false` result with no error, refuting
"ok === false iff the error field is present as a non-empty string". -/
theorem claude_empty_message_drops_error :
    (fetchClaudeQuota envClaudeEmptyError).ok = false ∧
    (fetchClaudeQuota envClaudeEmptyError).error = none :=
  ⟨rfl, rfl⟩

theorem errorDiscipline_buildResult_false (pid name : String) (conf : Bool)
    (usage : Option Usage) (err : Option String) (now : ℚ) :
    resultErrorDiscipline (buildResult pid name false conf usage err now) := by
  constructor
  · intro h
    simp [buildResult] at h
  · intro e he
    refine ⟨?_, rfl⟩
    simp only [buildResult] at he
    cases err with
    | none => exact absurd he (by simp)
    | some s =>
      by_cases hs : s = ""
      · simp [hs] at he
      · simp [hs] at he
        exact he ▸ hs

theorem errorDiscipline_buildResult_ok (pid name : String) (conf : Bool)
    (usage : Option Usage) (now : ℚ) :
    resultErrorDiscipline (buildResult pid name true conf usage none now) := by
  constructor
  · intro _
    rfl
  · intro e he
    simp [buildResult] at he

theorem errorDiscipline_runFetcher (pid name : String) (now : ℚ)
    (fetch : FetchResult) (mk : JVal → Usage) :
    resultErrorDiscipline (runFetcher pid name now fetch mk) := by
  cases fetch with
  | error e =>
    exact errorDiscipline_buildResult_false _ _ _ _ _ _
  | ok response =>
    cases hok : response.ok with
    | false =>
      simp only [runFetcher, hok]
      norm_num
      exact errorDiscipline_buildResult_false _ _ _ _ _ _
    | true =>
      cases hb : response.body with
      | error e =>
        simp only [runFetcher, hok, hb]
        norm_num
        exact errorDiscipline_buildResult_false _ _ _ _ _ _
      | ok payload =>
        simp only [runFetcher, hok, hb]
        norm_num
        exact errorDiscipline_buildResult_ok _ _ _ _ _

theorem errorDiscipline_fetchClaude (env : QuotaEnv) :
    resultErrorDiscipline (fetchClaudeQuota env) := by
  simp only [fetchClaudeQuota]
  split
  · exact errorDiscipline_buildResult_false _ _ _ _ _ _
  · exact errorDiscipline_runFetcher _ _ _ _ _

theorem errorDiscipline_fetchCodex (env : QuotaEnv) :
    resultErrorDiscipline (fetchCodexQuota env) := by
  simp only [fetchCodexQuota]
  split
  · exact errorDiscipline_buildResult_false _ _ _ _ _ _
  · exact errorDiscipline_runFetcher _ _ _ _ _

theorem errorDiscipline_fetchCopilot (env : QuotaEnv) :
    resultErrorDiscipline (fetchCopilotQuota env) := by
  simp only [fetchCopilotQuota]
  split
  · exact errorDiscipline_buildResult_false _ _ _ _ _ _
  · exact errorDiscipline_runFetcher _ _ _ _ _

theorem errorDiscipline_fetchCopilotAddon (env : QuotaEnv) :
    resultErrorDiscipline (fetchCopilotAddonQuota env) := by
  simp only [fetchCopilotAddonQuota]
  split
  · exact errorDiscipline_buildResult_false _ _ _ _ _ _
  · exact errorDiscipline_runFetcher _ _ _ _ _

theorem errorDiscipline_fetchKimi (env : QuotaEnv) :
    resultErrorDiscipline (fetchKimiQuota env) := by
  simp only [fetchKimiQuota]
  split
  · exact errorDiscipline_buildResult_false _ _ _ _ _ _
  · exact errorDiscipline_runFetcher _ _ _ _ _

theorem errorDiscipline_fetchOpenRouter (env : QuotaEnv) :
    resultErrorDiscipline (fetchOpenRouterQuota env) := by
  simp only [fetchOpenRouterQuota]
  split
  · exact errorDiscipline_buildResult_false _ _ _ _ _ _
  · exact errorDiscipline_runFetcher _ _ _ _ _

theorem errorDiscipline_fetchZai (env : QuotaEnv) :
    resultErrorDiscipline (fetchZaiQuota env) := by
  simp only [fetchZaiQuota]
  split
  · exact errorDiscipline_buildResult_false _ _ _ _ _ _
  · exact errorDiscipline_runFetcher _ _ _ _ _

theorem errorDiscipline_fetchNanoGpt (env : QuotaEnv) :
    resultErrorDiscipline (fetchNanoGptQuota env) := by
  simp only [fetchNanoGptQuota]
  split
  · exact errorDiscipline_buildResult_false _ _ _ _ _ _
  · exact errorDiscipline_runFetcher _ _ _ _ _

theorem errorDiscipline_fetchGoogle (env : QuotaEnv) (r : ProviderResult)
    (hr : fetchGoogleQuota env = .ok r) : resultErrorDiscipline r := by
  simp only [fetchGoogleQuota] at hr
  split at hr
  · injection hr with hr'
    exact hr' ▸ errorDiscipline_buildResult_false _ _ _ _ _ _
  · split at hr
    · exact absurd hr (by simp)
    · split at hr
      · injection hr with hr'
        exact hr' ▸ errorDiscipline_buildResult_false _ _ _ _ _ _
      · injection hr with hr'
        exact hr' ▸ errorDiscipline_buildResult_ok _ _ _ _ _

/-- Claim C6 (amended): every result the dispatch facade resolves to
satisfies the provable part of the error/`ok` discipline — a successful
result never carries an error key, and a present error key is a
non-empty string on a failed result.  The converse direction of the
original claim (every `ok:false` result carries an error) fails exactly
for caught exceptions whose message is the empty string, as the
counterexample shows. -/
theorem providerResult_error_discipline (env : QuotaEnv) (providerId : String)
    (r : ProviderResult) (h : fetchQuotaForProvider env providerId = .ok r) :
    (r.ok = true → r.error = none) ∧
    (∀ e, r.error = some e → e ≠ "" ∧ r.ok = false) := by
  have hd : resultErrorDiscipline r := by
    simp only [fetchQuotaForProvider] at h
    split at h
    · injection h with h'
      exact h' ▸ errorDiscipline_fetchClaude env
    · split at h
      · injection h with h'
        exact h' ▸ errorDiscipline_fetchCodex env
      · split at h
        · injection h with h'
          exact h' ▸ errorDiscipline_fetchCopilot env
        · split at h
          · injection h with h'
            exact h' ▸ errorDiscipline_fetchCopilotAddon env
          · split at h
            · exact errorDiscipline_fetchGoogle env r h
            · split at h
              · injection h with h'
                exact h' ▸ errorDiscipline_fetchKimi env
              · split at h
                · injection h with h'
                  exact h' ▸ errorDiscipline_fetchNanoGpt env
                · split at h
                  · injection h with h'
                    exact h' ▸ errorDiscipline_fetchOpenRouter env
                  · split at h
                    · injection h with h'
                      exact h' ▸ errorDiscipline_fetchZai env
                    · injection h with h'
                      exact h' ▸ errorDiscipline_buildResult_false _ _ _ _ _ _
  exact hd

theorem providerResult_error_discipline_witness :
    ((buildResult "nope" "nope" false false none (some "Unsupported provider")
        envDefault.now).ok = true →
      (buildResult "nope" "nope" false false none (some "Unsupported provider")
        envDefault.now).error = none) ∧
    ((buildResult "nope" "nope" false false none (some "Unsupported provider")
        envDefault.now).error = some "Unsupported provider" →
      "Unsupported provider" ≠ "" ∧
      (buildResult "nope" "nope" false false none (some "Unsupported provider")
        envDefault.now).ok = false) := by
  have h := providerResult_error_discipline envDefault "nope"
    (buildResult "nope" "nope" false false none (some "Unsupported provider")
      envDefault.now) rfl
  exact ⟨h.1, h.2 "Unsupported provider"⟩

theorem jsToFixed0_zero : jsToFixed0 0 = "0" := by
  unfold jsToFixed0
  norm_num
  decide

theorem jsToFixed0_five : jsToFixed0 5 = "5" := by
  unfold jsToFixed0
  norm_num
  decide

/-- Claim C10, counterexample: for the snapshot `{entitlement: 0,
remaining: 5}` the used percentage is indeed suppressed (no division by
zero), but the label is `"5 / 0 left"`, not the claimed `"0 / 0 left"`
— the literal label in the claim only arises when `remaining` also
renders as `0`. -/
theorem copilot_zero_entitlement_label :
    (lookupKey (buildCopilotWindows envDefault copilotPayloadZero) "chat").map
        UsageWindow.usedPercent = some none ∧
    (lookupKey (buildCopilotWindows envDefault copilotPayloadZero) "chat").map
        UsageWindow.valueLabel = some (some "5 / 0 left") ∧
    "5 / 0 left" ≠ "0 / 0 left" := by
  have hwin : lookupKey (buildCopilotWindows envDefault copilotPayloadZero) "chat" =
      some (toUsageWindow envDefault none none none
        (some (jsToFixed0 5 ++ " / " ++ jsToFixed0 0 ++ " left"))) := rfl
  refine ⟨?_, ?_, by decide⟩
  · rw [hwin]
    rfl
  · rw [hwin, jsToFixed0_five, jsToFixed0_zero]
    rfl

/-- Claim C10 (amended): the Copilot window builder never divides by
zero — a snapshot whose coerced entitlement is `0` or `null` gets a
`null` used percentage — yet with entitlement coercing to `0` and
remaining coercing to `r` the window still carries the value label
`"<r.toFixed(0)> / 0 left"` (so `"0 / 0 left"` exactly when `r` renders
as `0`): the label and the percentage are guarded by different
conditions. -/
theorem copilot_entitlement_guard :
    (∀ (env : QuotaEnv) (ra : Option ℚ) (label : String) (snap : JVal)
        (ws : List (String × UsageWindow)) (r : ℚ),
      snap.truthy = true →
      toNumber (jget snap "entitlement") = some 0 →
      toNumber (jget snap "remaining") = some r →
      (lookupKey (copilotAddWindow env ra label snap ws) label).map
          UsageWindow.usedPercent = some none ∧
      (lookupKey (copilotAddWindow env ra label snap ws) label).map
          UsageWindow.valueLabel =
        some (some (jsToFixed0 r ++ " / " ++ jsToFixed0 0 ++ " left")) ∧
      jsToFixed0 (0 : ℚ) = "0") ∧
    (∀ (env : QuotaEnv) (ra : Option ℚ) (label : String) (snap : JVal)
        (ws : List (String × UsageWindow)),
      snap.truthy = true →
      toNumber (jget snap "entitlement") = none →
      (lookupKey (copilotAddWindow env ra label snap ws) label).map
          UsageWindow.usedPercent = some none) := by
  constructor
  · intro env ra label snap ws r ht he hr
    have hne : (jsToFixed0 r ++ " / " ++ jsToFixed0 0 ++ " left") ≠ "" := by
      intro hc
      have hlen := congrArg String.length hc
      simp only [String.length_append] at hlen
      have h5 : (" left" : String).length = 5 := rfl
      have h0 : ("" : String).length = 0 := rfl
      rw [h5, h0] at hlen
      omega
    have hwin : copilotAddWindow env ra label snap ws =
        setKey ws label (toUsageWindow env none none ra
          (some (jsToFixed0 r ++ " / " ++ jsToFixed0 0 ++ " left"))) := by
      simp only [copilotAddWindow, ht, he, hr]
      norm_num
    rw [hwin, lookupKey_setKey]
    refine ⟨rfl, ?_, jsToFixed0_zero⟩
    simp only [toUsageWindow, Option.map]
    rw [if_neg hne]
  · intro env ra label snap ws ht he
    have hwin : copilotAddWindow env ra label snap ws =
        setKey ws label (toUsageWindow env none none ra
          (match toNumber (jget snap "remaining") with
           | some _ => none
           | none => none)) := by
      simp only [copilotAddWindow, ht, he]
      norm_num
      cases toNumber (jget snap "remaining") <;> rfl
    rw [hwin, lookupKey_setKey]
    cases toNumber (jget snap "remaining") <;> rfl

theorem copilot_entitlement_guard_witness :
    (lookupKey (copilotAddWindow envDefault none "chat"
        (.obj [("entitlement", .num 0), ("remaining", .num 0)]) []) "chat").map
      UsageWindow.usedPercent = some none ∧
    (lookupKey (copilotAddWindow envDefault none "chat"
        (.obj [("entitlement", .num 0), ("remaining", .num 0)]) []) "chat").map
      UsageWindow.valueLabel =
        some (some (jsToFixed0 0 ++ " / " ++ jsToFixed0 0 ++ " left")) ∧
    jsToFixed0 (0 : ℚ) ++ " / " ++ jsToFixed0 (0 : ℚ) ++ " left" = "0 / 0 left" := by
  have h := copilot_entitlement_guard.1 envDefault none "chat"
    (.obj [("entitlement", .num 0), ("remaining", .num 0)]) [] 0 rfl rfl rfl
  refine ⟨h.1, h.2.1, ?_⟩
  rw [jsToFixed0_zero]
  decide

theorem resolveWindowSeconds_noPct : resolveWindowSeconds zaiLimitNoPct = some 3600 := by
  simp +decide [resolveWindowSeconds, zaiLimitNoPct, jget, jgetList, JVal.truthy,
    zaiUnitSeconds, toNumber]

theorem resolveWindowSeconds_pct : resolveWindowSeconds zaiLimitPct = some 3600 := by
  simp +decide [resolveWindowSeconds, zaiLimitPct, jget, jgetList, JVal.truthy,
    zaiUnitSeconds, toNumber]

theorem resolveWindowLabel_3600 : resolveWindowLabel (some 3600) = "1h" := by
  have hd : jsFloor ((1 : ℚ) / 24) = 0 := by
    unfold jsFloor
    norm_num
  have hh : jsFloor ((1 : ℚ)) = 1 := by
    unfold jsFloor
    norm_num
  simp only [resolveWindowLabel]
  norm_num [ratToJsString, intToJsString, Rat.den_ofNat, Rat.num_ofNat]
  norm_num [hd, hh]
  decide

/-- Claim C4, counterexample: a tokens-limit entry with no upstream
`percentage` field but with `usage`/`limit` numbers from which a ratio
is computable still yields a `null` used percentage — the code has no
ratio fallback at all, refuting "otherwise is computed as a used/limit
ratio fallback from the limit entry's fields". -/
theorem zai_no_ratio_fallback :
    (resultWindow (fetchZaiQuota envZaiNoPct) "1h").map UsageWindow.usedPercent =
      some none ∧
    toNumber (jget zaiLimitNoPct "usage") = some 50 ∧
    toNumber (jget zaiLimitNoPct "limit") = some 100 := by
  refine ⟨?_, rfl, rfl⟩
  have hz : resultWindow (fetchZaiQuota envZaiNoPct) "1h" =
      lookupKey [(resolveWindowLabel (resolveWindowSeconds zaiLimitNoPct),
        toUsageWindow envZaiNoPct (zaiPercentage zaiLimitNoPct)
          (resolveWindowSeconds zaiLimitNoPct) (zaiResetAt zaiLimitNoPct) none)]
        "1h" := rfl
  rw [hz, resolveWindowSeconds_noPct, resolveWindowLabel_3600]
  rfl

/-- Claim C4 (amended): for every successful z.ai fetch whose payload
carries a tokens-limit entry, the window's used percentage is the
upstream `percentage` field passed through exactly when that field is a
number (`zaiPercentage`), and `null` in every other case — there is no
ratio fallback. -/
theorem zai_percentage_passthrough (env : QuotaEnv) (payload : JVal)
    (response : HttpResponse) (tokensLimit : JVal)
    (hfetch : env.zaiFetch = .ok response) (hok : response.ok = true)
    (hbody : response.body = .ok payload)
    (hkey : (jsOrElse
        (jget (normalizeAuthEntry (getAuthEntry env.auth ["zai-coding-plan", "zai", "z.ai"]))
          "key")
        (jget (normalizeAuthEntry (getAuthEntry env.auth ["zai-coding-plan", "zai", "z.ai"]))
          "token")).truthy = true)
    (hfind : zaiFindTokensLimit (zaiLimits payload) = some tokensLimit) :
    (resultWindow (fetchZaiQuota env)
        (resolveWindowLabel (resolveWindowSeconds tokensLimit))).map
      UsageWindow.usedPercent = some (zaiPercentage tokensLimit) := by
  have happ : fetchZaiQuota env = runFetcher "zai-coding-plan" "z.ai" env.now env.zaiFetch
      (fun payload => { windows := zaiWindows env payload, models := none }) := by
    simp [fetchZaiQuota, hkey]
  rw [happ]
  simp only [runFetcher, hfetch, hok, hbody]
  norm_num
  simp only [resultWindow, buildResult, zaiWindows, hfind]
  simp [lookupKey, toUsageWindow]

theorem zai_percentage_passthrough_witness :
    (resultWindow (fetchZaiQuota envZaiPct)
        (resolveWindowLabel (resolveWindowSeconds zaiLimitPct))).map
      UsageWindow.usedPercent = some (some 30) ∧
    resolveWindowLabel (resolveWindowSeconds zaiLimitPct) = "1h" := by
  constructor
  · have h := zai_percentage_passthrough envZaiPct zaiPayloadPct
      ⟨true, 200, .ok zaiPayloadPct⟩ zaiLimitPct rfl rfl rfl rfl rfl
    rw [h]
    rfl
  · rw [resolveWindowSeconds_pct, resolveWindowLabel_3600]

/-- Claim C3, counterexample: with the stored entry
`anthropic ↦ { access: "", token: "x" }` the enumerator's truthy-or
check lists `claude` (the empty `access` is falsy, the token is truthy),
but the fetcher's nullish-coalescing picks the non-nullish empty-string
`access`, finds it falsy, and short-circuits to `configured:false` — the
claimed equivalence fails on this store. -/
theorem listConfigured_fetcher_disagreement :
    "claude" ∈ listConfiguredQuotaProviders envClaudeEmptyAccess ∧
    (fetchClaudeQuota envClaudeEmptyAccess).configured = false ∧
    (fetchClaudeQuota envClaudeEmptyAccess).error = some "Not configured" := by
  refine ⟨by decide, rfl, rfl⟩

theorem jgetList_mem (l : List (String × JVal)) (k : String) :
    jgetList l k = .undefined ∨ (k, jgetList l k) ∈ l := by
  induction l with
  | nil => exact Or.inl rfl
  | cons p rest ih =>
    obtain ⟨k0, v⟩ := p
    by_cases h : k0 = k
    · right
      simp [jgetList, h]
    · rcases ih with h1 | h1
      · left
        simp [jgetList, h, h1]
      · right
        simp [jgetList, h]
        right
        exact h1

theorem cleanStore_entry (auth : AuthStore) (h : cleanStore auth = true)
    (k : String) (v : JVal) (hm : (k, v) ∈ auth) : cleanEntry v = true := by
  simp only [cleanStore, List.all_eq_true] at h
  exact h (k, v) hm

theorem normalized_fields_clean (auth : AuthStore) (aliases : List String)
    (h : cleanStore auth = true) :
    cleanVal (jget (normalizeAuthEntry (getAuthEntry auth aliases)) "access") = true ∧
    cleanVal (jget (normalizeAuthEntry (getAuthEntry auth aliases)) "token") = true ∧
    cleanVal (jget (normalizeAuthEntry (getAuthEntry auth aliases)) "key") = true := by
  induction aliases with
  | nil => exact ⟨rfl, rfl, rfl⟩
  | cons a rest ih =>
    simp only [getAuthEntry]
    by_cases ht : (authLookup auth a).truthy = true
    · rw [if_pos ht]
      rcases jgetList_mem auth a with hu | hm
      · rw [show authLookup auth a = jgetList auth a from rfl, hu] at ht
        simp [JVal.truthy] at ht
      · have hce : cleanEntry (authLookup auth a) = true := cleanStore_entry auth h a _ hm
        cases hv : authLookup auth a with
        | null =>
          rw [hv] at ht
          simp [JVal.truthy] at ht
        | undefined =>
          rw [hv] at ht
          simp [JVal.truthy] at ht
        | bool b =>
          cases b
          · exact ⟨rfl, rfl, rfl⟩
          · exact ⟨rfl, rfl, rfl⟩
        | num q =>
          have hn : normalizeAuthEntry (.num q) = .null := by
            unfold normalizeAuthEntry
            split
            · rfl
            · rfl
          rw [hn]
          exact ⟨rfl, rfl, rfl⟩
        | str s =>
          rw [hv] at ht
          have hs : normalizeAuthEntry (.str s) = .obj [("token", .str s)] := by
            simp [normalizeAuthEntry, ht]
          rw [hs]
          refine ⟨rfl, ?_, rfl⟩
          simp [jget, jgetList, cleanVal, ht]
        | arr xs =>
          have ha : normalizeAuthEntry (.arr xs) = .arr xs := by
            simp [normalizeAuthEntry, JVal.truthy]
          rw [ha]
          exact ⟨rfl, rfl, rfl⟩
        | obj fs =>
          rw [hv] at hce
          have ho : normalizeAuthEntry (.obj fs) = .obj fs := by
            simp [normalizeAuthEntry, JVal.truthy]
          rw [ho]
          simp only [cleanEntry, Bool.and_eq_true] at hce
          exact ⟨hce.1.1, hce.1.2, hce.2⟩
    · rw [if_neg ht]
      exact ih

theorem orElse_truthy_of_clean (a b : JVal) (h : cleanVal a = true) :
    (jsOrElse a b).truthy = (a.truthy || b.truthy) := by
  by_cases hn : a.isNullish = true
  · have ha : a.truthy = false := by
      cases a <;> simp_all [JVal.isNullish, JVal.truthy]
    simp [jsOrElse, hn, ha]
  · have ha : a.truthy = true := by
      simp only [cleanVal, Bool.or_eq_true] at h
      rcases h with h | h
      · exact absurd h hn
      · exact h
    simp [jsOrElse, hn, ha]

theorem mem_ite_list (c : Bool) (x : String) (l : List String) :
    (x ∈ if c = true then l else []) ↔ (c = true ∧ x ∈ l) := by
  by_cases h : c = true <;> simp [h]

theorem mem_listConfigured_claude (env : QuotaEnv) :
    ("claude" ∈ listConfiguredQuotaProviders env) ↔ claudeListFlag env = true := by
  simp +decide [listConfiguredQuotaProviders, List.mem_append, mem_ite_list]

theorem mem_listConfigured_kimi (env : QuotaEnv) :
    ("kimi-for-coding" ∈ listConfiguredQuotaProviders env) ↔ kimiListFlag env = true := by
  simp +decide [listConfiguredQuotaProviders, List.mem_append, mem_ite_list]

theorem runFetcher_configured (pid name : String) (now : ℚ) (fetch : FetchResult)
    (mk : JVal → Usage) : (runFetcher pid name now fetch mk).configured = true := by
  cases fetch with
  | error e => rfl
  | ok response =>
    simp only [runFetcher]
    split
    · rfl
    · cases response.body <;> rfl

theorem fetchClaude_configured (env : QuotaEnv) :
    (fetchClaudeQuota env).configured =
      (jsOrElse
        (jget (normalizeAuthEntry (getAuthEntry env.auth ["anthropic", "claude"])) "access")
        (jget (normalizeAuthEntry (getAuthEntry env.auth ["anthropic", "claude"])) "token")).truthy := by
  simp only [fetchClaudeQuota]
  split
  · next hcond =>
    simp only [buildResult]
    exact ((Bool.not_eq_true _).mp hcond).symm
  · next hcond =>
    rw [runFetcher_configured]
    exact (not_not.mp hcond).symm

theorem fetchKimi_configured (env : QuotaEnv) :
    (fetchKimiQuota env).configured =
      (jsOrElse
        (jget (normalizeAuthEntry (getAuthEntry env.auth ["kimi-for-coding", "kimi"])) "key")
        (jget (normalizeAuthEntry (getAuthEntry env.auth ["kimi-for-coding", "kimi"])) "token")).truthy := by
  simp only [fetchKimiQuota]
  split
  · next hcond =>
    simp only [buildResult]
    exact ((Bool.not_eq_true _).mp hcond).symm
  · next hcond =>
    rw [runFetcher_configured]
    exact (not_not.mp hcond).symm

/-- Claim C3 (amended): the equivalence between the enumerator and the
fetchers' configured checks holds for every credential store whose
entries are clean — no stored `access`/`token`/`key` field is a present
but falsy value such as the empty string — stated here for the two
cited fetchers; without that restriction only the fetcher-to-enumerator
direction holds, as the counterexample's empty-string `access` field
shows. -/
theorem listConfigured_matches_fetchers_clean (env : QuotaEnv)
    (h : cleanStore env.auth = true) :
    (("claude" ∈ listConfiguredQuotaProviders env) ↔
      (fetchClaudeQuota env).configured = true) ∧
    (("kimi-for-coding" ∈ listConfiguredQuotaProviders env) ↔
      (fetchKimiQuota env).configured = true) := by
  have hc := normalized_fields_clean env.auth ["anthropic", "claude"] h
  have hk := normalized_fields_clean env.auth ["kimi-for-coding", "kimi"] h
  constructor
  · rw [mem_listConfigured_claude, fetchClaude_configured,
      orElse_truthy_of_clean _ _ hc.1]
    exact Iff.rfl
  · rw [mem_listConfigured_kimi, fetchKimi_configured,
      orElse_truthy_of_clean _ _ hk.2.2]
    exact Iff.rfl

theorem listConfigured_matches_fetchers_clean_witness :
    cleanStore envKimiToken.auth = true ∧
    (("kimi-for-coding" ∈ listConfiguredQuotaProviders envKimiToken) ↔
      (fetchKimiQuota envKimiToken).configured = true) ∧
    "kimi-for-coding" ∈ listConfiguredQuotaProviders envKimiToken ∧
    (fetchKimiQuota envKimiToken).configured = true := by
  refine ⟨by decide, (listConfigured_matches_fetchers_clean envKimiToken (by decide)).2,
    by decide, rfl⟩

/-- Claim C5: with at least one resolvable auth source, and the source
loop completing (the refresh exchange not throwing), the Google result
is `ok:false` exactly when the merged models map stayed empty; whenever
any source contributed at least one model entry the result is `ok:true`
and `configured:true`, regardless of the failures the other source
recorded. -/
theorem google_partial_success (env : QuotaEnv)
    (models : List (String × ModelUsage)) (sourceErrors : List String)
    (hne : resolveGoogleAuthSources env ≠ [])
    (hloop : googleLoop env (resolveGoogleAuthSources env) ([], []) =
      .ok (models, sourceErrors)) :
    (∃ r, fetchGoogleQuota env = .ok r) ∧
    ∀ r, fetchGoogleQuota env = .ok r →
      ((r.ok = true ↔ models ≠ []) ∧ (r.ok = false ↔ models = []) ∧
        (models ≠ [] → r.ok = true ∧ r.configured = true)) := by
  have hie : (resolveGoogleAuthSources env).isEmpty = false := by
    cases hs : resolveGoogleAuthSources env
    · exact absurd hs hne
    · rfl
  cases models with
  | nil =>
    have heq : fetchGoogleQuota env =
        .ok (buildResult "google" "Google" false true none
          (some (sourceErrors.headD "Failed to fetch models")) env.now) := by
      simp [fetchGoogleQuota, hie, hloop]
    refine ⟨⟨_, heq⟩, ?_⟩
    intro r hr
    rw [heq] at hr
    injection hr with hr'
    subst hr'
    refine ⟨?_, ?_, ?_⟩ <;> simp [buildResult]
  | cons m ms =>
    have heq : fetchGoogleQuota env =
        .ok (buildResult "google" "Google" true true
          (some { windows := [],
                  models := if (m :: ms : List (String × ModelUsage)).isEmpty then none
                            else some (m :: ms) })
          none env.now) := by
      simp [fetchGoogleQuota, hie, hloop]
    refine ⟨⟨_, heq⟩, ?_⟩
    intro r hr
    rw [heq] at hr
    injection hr with hr'
    subst hr'
    refine ⟨?_, ?_, ?_⟩ <;> simp [buildResult]

theorem google_partial_success_witness :
    resolveGoogleAuthSources envGooglePartial ≠ [] ∧
    googleLoop envGooglePartial (resolveGoogleAuthSources envGooglePartial) ([], []) =
      .ok (googlePartialModels, googlePartialErrors) ∧
    googlePartialModels ≠ [] ∧
    fetchGoogleQuota envGooglePartial = .ok googlePartialResult ∧
    googlePartialResult.ok = true ∧
    googlePartialResult.configured = true := by
  have h1 : resolveGoogleAuthSources envGooglePartial ≠ [] := by decide
  have h2 : googleLoop envGooglePartial (resolveGoogleAuthSources envGooglePartial) ([], []) =
      .ok (googlePartialModels, googlePartialErrors) := rfl
  have hm : googlePartialModels ≠ [] := by decide
  have h := google_partial_success envGooglePartial googlePartialModels googlePartialErrors h1 h2
  exact ⟨h1, h2, hm, rfl, ((h.2 googlePartialResult rfl).2.2 hm).1,
    ((h.2 googlePartialResult rfl).2.2 hm).2⟩
